import Mathlib

/-!
Shallow embedding of `src/server.py` (jewei-mssql-mcp-server).

The module under scrutiny exposes four MCP tools over a SQL Server
engine: `query_sql`, `get_table_structure`, `list_tables` and
`get_database_info`.  The embedding below models the pure decision
logic of those functions — the query guard, the lazy connection
management, the row materialization and the tiered catalog queries —
as Lean functions.  Interactions with the real database (SQLAlchemy
`create_engine`, the `SELECT 1` probe, `conn.execute`) are modelled by
oracle fields of explicit "world" structures: each field records the
outcome the database would produce for that call.  A Python exception
is modelled by the `Outcome.err` constructor carrying `str(e)`.

Python string values flowing through result rows are modelled by their
textual rendering (`String`); the distinguished Python value `None`
(also the rendering of SQL NULL) is modelled by `Option.none`.

String scanning in the guard is implemented over `List Char` with
structural recursion (the logical model of Python `str` operations on
the relevant ASCII fragment), so that every definition evaluates under
kernel reduction.
-/

/-- Python exception-or-value outcome: `ok v` is a normal return, `err m`
an exception whose `str()` is `m`. -/
inductive Outcome (α : Type) where
  | ok (val : α)
  | err (msg : String)
deriving DecidableEq

/-- True when the outcome is a normal return. -/
def Outcome.succeeded {α : Type} : Outcome α → Bool
  | Outcome.ok _ => true
  | Outcome.err _ => false

/-- ASCII lowering of one character, the fragment of Python `str.lower`
exercised by the guard (all guard tokens are ASCII). -/
def pyLowerChar (c : Char) : Char := c.toLower

/-- Python `str.lower` on the character sequence of a string. -/
def pyLower (s : List Char) : List Char := s.map pyLowerChar

/-- Whitespace characters removed by Python `str.strip` (ASCII fragment). -/
def pySpace (c : Char) : Bool :=
  c = ' ' || c = '\t' || c = '\n' || c = '\x0d' || c = '\x0b' || c = '\x0c'

/-- Python `str.strip`: drop leading and trailing whitespace. -/
def pyStrip (s : List Char) : List Char :=
  ((s.dropWhile pySpace).reverse.dropWhile pySpace).reverse

/-- Python `a in b` for strings: `pat` occurs as a contiguous substring. -/
def pyContains (s pat : List Char) : Bool :=
  pat.isPrefixOf s ||
    match s with
    | [] => false
    | _ :: rest => pyContains rest pat

/-- The normalization `sql.lower().strip()` performed by `query_sql`
(src/server.py line 91). -/
def normalizeSql (sql : String) : List Char := pyStrip (pyLower sql.data)

/-- The deny list `dangerous_keywords` (src/server.py line 101). -/
def dangerous_keywords : List String :=
  ["insert", "update", "delete", "drop", "alter", "create", "truncate", "exec", "execute"]

/-- The space padding `f" {s} "` used by the keyword scan
(src/server.py line 103). -/
def spacePadded (s : List Char) : List Char := ' ' :: s ++ [' ']

/-- The keyword scan of src/server.py lines 102-103: the first deny-listed
keyword `kw` such that `f" {kw} "` is a substring of `f" {sql_lower} "`. -/
def findDangerousKeyword (sqlLower : List Char) : Option String :=
  dangerous_keywords.find? (fun kw => pyContains (spacePadded sqlLower) (spacePadded kw.data))

/-- A single ASCII apostrophe, used in the keyword rejection message. -/
def squote : String := String.singleton (Char.ofNat 39)

/-- The rejection message of src/server.py line 104. -/
def keywordErrorMsg (kw : String) : String :=
  "安全限制：查询中包含禁止的关键字 " ++ squote ++ kw ++ squote

/-- A SQLAlchemy engine handle, opaque except for identity. -/
structure Engine where
  id : Nat
deriving DecidableEq

/-- The environment-derived configuration DB_HOST .. DB_PORT
(src/server.py lines 15-19). -/
structure DBConfig where
  host : String
  user : String
  password : String
  name : String
  port : String
deriving DecidableEq

/-- CONNECTION_STRING (src/server.py line 24). -/
def CONNECTION_STRING (c : DBConfig) : String :=
  "mssql+pyodbc://" ++ c.user ++ ":" ++ c.password ++ "@" ++ c.host ++ ":" ++ c.port
    ++ "/" ++ c.name ++ "?driver=SQL+Server&timeout=30&trusted_connection=no&encrypt=no"

/-- One raw row of a result cursor.  `cells` records the outcome of each
positional access `row[i]` (`ok v`: the cell holds value `v`, with
`Option.none` standing for Python `None`; `err m`: the access raises).
`rowFails` records whether the guarded per-cell recovery block for this
row itself raises (the catch-all at src/server.py line 137), and
`rowStr` is `str(row)`. -/
structure RawRow where
  cells : List (Outcome (Option String))
  rowFails : Bool
  rowStr : String
deriving DecidableEq

/-- A result cursor: `result.keys()` plus the iterated rows. -/
structure Cursor where
  keys : List String
  rows : List RawRow
deriving DecidableEq

/-- The database behaviour visible to `query_sql` and the connection
provider: the outcome of `create_engine` (src/server.py line 45), of the
`SELECT 1` probe (line 56, `ok` carrying the `fetchone` rendering), and
of `conn.execute(text(sql))` plus cursor iteration (line 114). -/
structure DBWorld where
  createEngine : Outcome Engine
  probe : Engine → Outcome String
  runQuery : Engine → String → Outcome Cursor

/-- `get_db_connection` (src/server.py lines 35-71) as a state transition:
given the module-level `engine` variable, returns the raised-or-returned
outcome, the new value of `engine`, and the diagnostic lines printed.
Note the Python code assigns the module-level `engine` at line 45 before
probing it at lines 55-57, so a probe failure leaves the global set. -/
def get_db_connection (cfg : DBConfig) (w : DBWorld) (engine : Option Engine) :
    Outcome Engine × Option Engine × List String :=
  match engine with
  | some e => (Outcome.ok e, some e, [])
  | none =>
    let header : List String :=
      ["正在创建数据库连接...",
       "连接到: " ++ cfg.host ++ ":" ++ cfg.port ++ ", 数据库: " ++ cfg.name
         ++ ", 用户: " ++ cfg.user,
       "连接字符串: " ++ CONNECTION_STRING cfg]
    match w.createEngine with
    | Outcome.err m =>
        (Outcome.err ("数据库连接失败: " ++ m), none,
         header ++ ["数据库连接失败: " ++ m])
    | Outcome.ok e =>
      match w.probe e with
      | Outcome.err m =>
          (Outcome.err ("数据库连接失败: " ++ m), some e,
           header ++ ["数据库连接失败: " ++ m])
      | Outcome.ok res =>
          (Outcome.ok e, some e, header ++ ["测试连接结果: " ++ res, "数据库连接创建成功"])

/-- The positional access `row[i]`: out-of-range indexing raises. -/
def cellAccess (r : RawRow) (i : Nat) : Outcome (Option String) :=
  match r.cells.get? i with
  | some o => o
  | none => Outcome.err "IndexError"

/-- Python `enumerate` over the column list, starting at index `n`. -/
def enumerateFrom : Nat → List String → List (Nat × String)
  | _, [] => []
  | n, c :: cs => (n, c) :: enumerateFrom (n + 1) cs

/-- `enumerate(columns)` (src/server.py line 123). -/
def pyEnumerate (cols : List String) : List (Nat × String) := enumerateFrom 0 cols

/-- The dict comprehension `{col: row[i] for i, col in enumerate(columns)}`
(src/server.py line 123): raises at the first failing cell access. -/
def dictOfRow (r : RawRow) : List (Nat × String) → Outcome (List (String × Option String))
  | [] => Outcome.ok []
  | p :: rest =>
    match cellAccess r p.1 with
    | Outcome.err m => Outcome.err m
    | Outcome.ok v =>
      match dictOfRow r rest with
      | Outcome.err m => Outcome.err m
      | Outcome.ok d => Outcome.ok ((p.2, v) :: d)

/-- The recovered value of one cell in the per-cell fallback loop
(src/server.py lines 131-135): the cell's value, or `None` if the access
raises. -/
def recoveredCell (o : Outcome (Option String)) : Option String :=
  match o with
  | Outcome.ok v => v
  | Outcome.err _ => none

/-- The per-cell fallback loop of src/server.py lines 130-135. -/
def dictOfRowSafe (r : RawRow) (cols : List String) : List (String × Option String) :=
  (pyEnumerate cols).map (fun p => (p.2, recoveredCell (cellAccess r p.1)))

/-- Conversion of one cursor row by src/server.py lines 120-140: the dict
comprehension, then the per-cell fallback loop, then the last-resort
one-field dict `{"value": str(row)}`. -/
def processRow (cols : List String) (r : RawRow) : List (String × Option String) :=
  match dictOfRow r (pyEnumerate cols) with
  | Outcome.ok d => d
  | Outcome.err _ =>
    if r.rowFails then [("value", some r.rowStr)]
    else dictOfRowSafe r cols

/-- The whole materialization loop of src/server.py lines 119-140. -/
def materializeRows (cols : List String) (rows : List RawRow) :
    List (List (String × Option String)) :=
  rows.map (processRow cols)

/-- The value returned by the `query_sql` tool: either the
columns/rows/row_count mapping or the `{"error", "sql"}` mapping. -/
inductive QueryReply where
  | success (columns : List String) (rows : List (List (String × Option String)))
      (row_count : Nat)
  | failure (error : String) (sql : String)
deriving DecidableEq

/-- `query_sql` (src/server.py lines 74-154) as a function of the
configuration, the database behaviour, the module-level `engine`
variable and the SQL text.  Returns the reply, the new `engine` value,
and the list of SQL texts actually submitted to the database. -/
def query_sql (cfg : DBConfig) (w : DBWorld) (engine : Option Engine) (sql : String) :
    QueryReply × Option Engine × List String :=
  match "select".data.isPrefixOf (normalizeSql sql) with
  | false => (QueryReply.failure "安全限制：只允许执行SELECT语句" sql, engine, [])
  | true =>
    match findDangerousKeyword (normalizeSql sql) with
    | some kw => (QueryReply.failure (keywordErrorMsg kw) sql, engine, [])
    | none =>
      match get_db_connection cfg w engine with
      | (Outcome.err m, st, _) => (QueryReply.failure m sql, st, [])
      | (Outcome.ok e, st, _) =>
        match w.runQuery e sql with
        | Outcome.err m => (QueryReply.failure m sql, st, [sql])
        | Outcome.ok cur =>
          (QueryReply.success cur.keys (materializeRows cur.keys cur.rows)
            (materializeRows cur.keys cur.rows).length, st, [sql])

/-- `str(value) if value is not None else ""` applied to the outcome of a
cell access, with a raising access recovered as `""` (the per-cell
pattern of src/server.py lines 236-246, 268-272, 308-313, 347-352,
390-395, 476-486, 502-507). -/
def strCoerce (o : Outcome (Option String)) : String :=
  match o with
  | Outcome.ok (some v) => v
  | Outcome.ok none => ""
  | Outcome.err _ => ""

/-- `str(row[0]) if row and len(row) > 0 else "unknown"`, the one-field
per-row fallback used by the catalog loops; an empty or unreadable first
cell degrades to `"unknown"`.  (`str(None)` renders as `"None"`.) -/
def fallbackRepr (r : RawRow) : String :=
  match r.cells.head? with
  | none => "unknown"
  | some (Outcome.ok (some v)) => v
  | some (Outcome.ok none) => "None"
  | some (Outcome.err _) => "unknown"

/-- Conversion of one catalog row (rich tiers): per-cell string coercion,
with the one-field `{fallbackKey: str(row[0])}` dict when the guarded
per-row block raises. -/
def introRow (cols : List String) (fallbackKey : String) (r : RawRow) :
    List (String × String) :=
  if r.rowFails then [(fallbackKey, fallbackRepr r)]
  else (pyEnumerate cols).map (fun p => (p.2, strCoerce (cellAccess r p.1)))

/-- `if "description" not in row_dict: row_dict["description"] = ""`
(src/server.py lines 274-275, 509-510): Python dict assignment appends
the new key at the end. -/
def addEmptyDescription (d : List (String × String)) : List (String × String) :=
  if d.any (fun p => p.1 = "description") then d else d ++ [("description", "")]

/-- Conversion of one catalog row on the simplified tiers, which
synthesize an empty `description` field for rows converted per-cell
(the fallback one-field dict is appended from the `except` arm and is
not touched by the synthesis). -/
def introRowSimple (cols : List String) (fallbackKey : String) (r : RawRow) :
    List (String × String) :=
  if r.rowFails then [(fallbackKey, fallbackRepr r)]
  else addEmptyDescription
    ((pyEnumerate cols).map (fun p => (p.2, strCoerce (cellAccess r p.1))))

/-- The database behaviour visible to `get_table_structure`: the outcome
of `get_db_connection()` (line 175, message already wrapped), and the
outcomes of the five catalog statements — the rich columns query
(lines 178-201), the simplified columns query (lines 204-224), the
primary-key query (lines 283-298), the foreign-key query (lines
321-337) and the index query (lines 360-380). -/
structure IntroWorld where
  connect : Outcome Engine
  columnsRich : Outcome Cursor
  columnsSimple : Outcome Cursor
  pkQuery : Outcome Cursor
  fkQuery : Outcome Cursor
  indexQuery : Outcome Cursor

/-- The value returned by the `get_table_structure` tool. -/
inductive TableStructureReply where
  | ok (columns : List (List (String × String)))
      (primary_keys : List (List (String × String)))
      (foreign_keys : List (List (String × String)))
      (indexes : List (List (String × String)))
  | error (msg : String) (table : String) (schema : String)
deriving DecidableEq

/-- True when the reply is the four-list structure. -/
def TableStructureReply.isStruct : TableStructureReply → Bool
  | TableStructureReply.ok _ _ _ _ => true
  | TableStructureReply.error _ _ _ => false

/-- `get_table_structure` (src/server.py lines 157-416).  The columns
sub-query has a rich and a simplified tier (the `except` at line 256);
any exception not recovered there — including a failure of the
simplified tier, of the primary-key, foreign-key or index query — is
caught only by the outer handler at line 409, which returns
`{"error", "table", "schema"}`. -/
def get_table_structure (w : IntroWorld) (table_name schema : String) :
    TableStructureReply :=
  match w.connect with
  | Outcome.err m => TableStructureReply.error m table_name schema
  | Outcome.ok _ =>
    let colsRes : Outcome (List (List (String × String))) :=
      match w.columnsRich with
      | Outcome.ok cur => Outcome.ok (cur.rows.map (introRow cur.keys "column_name"))
      | Outcome.err _ =>
        match w.columnsSimple with
        | Outcome.ok cur =>
            Outcome.ok (cur.rows.map (introRowSimple cur.keys "column_name"))
        | Outcome.err m => Outcome.err m
    match colsRes with
    | Outcome.err m => TableStructureReply.error m table_name schema
    | Outcome.ok columns =>
      match w.pkQuery with
      | Outcome.err m => TableStructureReply.error m table_name schema
      | Outcome.ok pkCur =>
        match w.fkQuery with
        | Outcome.err m => TableStructureReply.error m table_name schema
        | Outcome.ok fkCur =>
          match w.indexQuery with
          | Outcome.err m => TableStructureReply.error m table_name schema
          | Outcome.ok idxCur =>
            TableStructureReply.ok columns
              (pkCur.rows.map (introRow pkCur.keys "column_name"))
              (fkCur.rows.map (introRow fkCur.keys "fk_name"))
              (idxCur.rows.map (introRow idxCur.keys "index_name"))

/-- The database behaviour visible to `list_tables`: the outcome of
`get_db_connection()` (line 430), of the rich table query (lines
434-449) and of the simplified table query (lines 452-464). -/
structure ListTablesWorld where
  connect : Outcome Engine
  richQuery : Outcome Cursor
  simpleQuery : Outcome Cursor

/-- The value returned by the `list_tables` tool. -/
inductive ListTablesReply where
  | ok (tables : List (List (String × String))) (count : Nat)
  | error (msg : String) (schema : String)
deriving DecidableEq

/-- `list_tables` (src/server.py lines 419-527): rich tier, simplified
tier with description synthesis, `count = len(tables)` computed once at
line 519 for whichever tier produced `tables`. -/
def list_tables (w : ListTablesWorld) (schema : String) : ListTablesReply :=
  match w.connect with
  | Outcome.err m => ListTablesReply.error m schema
  | Outcome.ok _ =>
    match w.richQuery with
    | Outcome.ok cur =>
      ListTablesReply.ok (cur.rows.map (introRow cur.keys "table_name"))
        (cur.rows.map (introRow cur.keys "table_name")).length
    | Outcome.err _ =>
      match w.simpleQuery with
      | Outcome.err m => ListTablesReply.error m schema
      | Outcome.ok cur =>
        ListTablesReply.ok (cur.rows.map (introRowSimple cur.keys "table_name"))
          (cur.rows.map (introRowSimple cur.keys "table_name")).length

/-- A concrete configuration used by the concrete evaluations below. -/
def cfg0 : DBConfig := ⟨"localhost", "sa", "secret123", "master", "1433"⟩

/-- A healthy database world: engine creation, probe and query execution
all succeed; `SELECT 1 AS x` style single-cell result. -/
def wOk : DBWorld :=
  ⟨Outcome.ok ⟨0⟩, fun _ => Outcome.ok "(1,)",
   fun _ _ => Outcome.ok ⟨["x"], [⟨[Outcome.ok (some "1")], false, "(1,)"⟩]⟩⟩

/-- A world where `create_engine` succeeds but the `SELECT 1` probe
fails (store unreachable). -/
def wProbeFails : DBWorld :=
  ⟨Outcome.ok ⟨7⟩, fun _ => Outcome.err "timeout expired",
   fun _ _ => Outcome.err "unused"⟩

/-- A world where `create_engine` itself fails. -/
def wCreateFails : DBWorld :=
  ⟨Outcome.err "bad url", fun _ => Outcome.ok "(1,)",
   fun _ _ => Outcome.err "unused"⟩

theorem enumerateFrom_map_snd (n : Nat) (cols : List String) :
    (enumerateFrom n cols).map Prod.snd = cols := by
  induction cols generalizing n with
  | nil => rfl
  | cons c cs ih => simp [enumerateFrom, ih]

theorem enumerateFrom_length (n : Nat) (cols : List String) :
    (enumerateFrom n cols).length = cols.length := by
  induction cols generalizing n with
  | nil => rfl
  | cons c cs ih => simp [enumerateFrom, ih]

theorem enumerateFrom_get? (n : Nat) (cols : List String) (j : Nat) (hj : j < cols.length) :
    (enumerateFrom n cols).get? j = some (n + j, cols.get ⟨j, hj⟩) := by
  induction cols generalizing n j with
  | nil => simp at hj
  | cons c cs ih =>
    cases j with
    | zero => simp [enumerateFrom]
    | succ k =>
      have hk : k < cs.length := Nat.lt_of_succ_lt_succ hj
      have := ih (n + 1) k hk
      simp only [enumerateFrom, List.get?_cons_succ, this, List.get]
      congr 2
      omega

theorem dictOfRow_ok_cells (r : RawRow) (l : List (Nat × String))
    (d : List (String × Option String)) (h : dictOfRow r l = Outcome.ok d) :
    ∀ p ∈ l, (cellAccess r p.1).succeeded = true := by
  induction l generalizing d with
  | nil => intro p hp; cases hp
  | cons q rest ih =>
    unfold dictOfRow at h
    cases hq : cellAccess r q.1 with
    | err m => rw [hq] at h; cases h
    | ok v =>
      rw [hq] at h
      cases hrest : dictOfRow r rest with
      | err m => rw [hrest] at h; cases h
      | ok d' =>
        intro p hp
        rcases List.mem_cons.mp hp with rfl | hp'
        · rw [hq]; rfl
        · exact ih d' hrest p hp'

theorem dictOfRow_ok_keys (r : RawRow) (l : List (Nat × String))
    (d : List (String × Option String)) (h : dictOfRow r l = Outcome.ok d) :
    d.map Prod.fst = l.map Prod.snd := by
  induction l generalizing d with
  | nil => cases h; rfl
  | cons q rest ih =>
    unfold dictOfRow at h
    cases hq : cellAccess r q.1 with
    | err m => rw [hq] at h; cases h
    | ok v =>
      rw [hq] at h
      cases hrest : dictOfRow r rest with
      | err m => rw [hrest] at h; cases h
      | ok d' =>
        rw [hrest] at h
        cases h
        simp [ih d' hrest]

/-- Claim C1: for every input whose lower-cased, stripped form does not
start with `select` (the empty string included), `query_sql` submits no
query to the database and returns the `{"error", "sql"}` mapping with
the original SQL text unchanged. -/
theorem c1_nonselect_rejected (cfg : DBConfig) (w : DBWorld) (st : Option Engine)
    (sql : String) (h : "select".data.isPrefixOf (normalizeSql sql) = false) :
    query_sql cfg w st sql =
      (QueryReply.failure "安全限制：只允许执行SELECT语句" sql, st, []) := by
  unfold query_sql
  simp [h]

/-- Concrete instance of C1 at the empty string. -/
theorem c1_nonselect_rejected_witness :
    query_sql cfg0 wOk none "" =
      (QueryReply.failure "安全限制：只允许执行SELECT语句" "", none, []) :=
  c1_nonselect_rejected cfg0 wOk none "" (by decide)

/-- Claim C9: a guard-rejected call (not starting with `select`, or
containing a deny-listed keyword) leaves the module-level engine
variable exactly as it was and submits no query to the database. -/
theorem c9_rejected_frame (cfg : DBConfig) (w : DBWorld) (st : Option Engine) (sql : String)
    (h : "select".data.isPrefixOf (normalizeSql sql) = false ∨
         findDangerousKeyword (normalizeSql sql) ≠ none) :
    (query_sql cfg w st sql).2.1 = st ∧ (query_sql cfg w st sql).2.2 = [] := by
  unfold query_sql
  rcases h with h | h
  · simp [h]
  · cases hp : "select".data.isPrefixOf (normalizeSql sql)
    · simp [hp]
    · cases hf : findDangerousKeyword (normalizeSql sql) with
      | none => exact absurd hf h
      | some kw => simp [hp, hf]

/-- Concrete instance of C9: a rejected first call leaves the engine
uninitialized. -/
theorem c9_rejected_frame_witness :
    (query_sql cfg0 wOk none "drop table x").2.1 = none ∧
    (query_sql cfg0 wOk none "drop table x").2.2 = [] :=
  c9_rejected_frame cfg0 wOk none "drop table x" (Or.inl (by decide))

/-- Claim C5: whenever `query_sql` returns the success mapping, its
`row_count` equals the number of entries in `rows`. -/
theorem c5_row_count_eq (cfg : DBConfig) (w : DBWorld) (st : Option Engine) (sql : String)
    (c : List String) (r : List (List (String × Option String))) (n : Nat)
    (h : (query_sql cfg w st sql).1 = QueryReply.success c r n) : n = r.length := by
  unfold query_sql at h
  cases hp : "select".data.isPrefixOf (normalizeSql sql) with
  | false => simp [hp] at h
  | true =>
    simp only [hp] at h
    cases hf : findDangerousKeyword (normalizeSql sql) with
    | some kw => simp [hf] at h
    | none =>
      simp only [hf] at h
      rcases hg : get_db_connection cfg w st with ⟨res, st', log⟩
      simp only [hg] at h
      cases res with
      | err m => simp at h
      | ok e =>
        cases hr : w.runQuery e sql with
        | err m => simp [hr] at h
        | ok cur =>
          simp only [hr] at h
          cases h
          rfl

/-- Concrete instance of C5 on a one-row result. -/
theorem c5_row_count_eq_witness :
    (1 : Nat) = [[(("x" : String), (some "1" : Option String))]].length :=
  c5_row_count_eq cfg0 wOk none "select 1 as x" ["x"] [[("x", some "1")]] 1 (by decide)

theorem find?_isSome_of_mem {α : Type} (p : α → Bool) (l : List α) (a : α)
    (ha : a ∈ l) (hp : p a = true) : ∃ b, l.find? p = some b := by
  induction l with
  | nil => cases ha
  | cons x xs ih =>
    by_cases hx : p x = true
    · exact ⟨x, List.find?_cons_of_pos _ hx⟩
    · rcases List.mem_cons.mp ha with rfl | ha'
      · exact absurd hp hx
      · rcases ih ha' with ⟨b, hb⟩
        refine ⟨b, ?_⟩
        rw [List.find?_cons_of_neg _ (by simpa using hx), hb]

/-- Claim C2 counterexample: `"select a\tdrop\tb"` starts with `select`
and contains the deny-listed keyword `drop` as a standalone word bounded
by whitespace (tabs), yet `query_sql` does not reject it: the statement
is submitted to the database and a success mapping is returned, because
the deny-list scan of src/server.py line 103 only matches keywords
bounded by single ASCII spaces. -/
theorem c2_counterexample :
    "select".data.isPrefixOf (normalizeSql "select a\tdrop\tb") = true ∧
    pyContains (normalizeSql "select a\tdrop\tb") ('\t' :: "drop".data ++ ['\t']) = true ∧
    (query_sql cfg0 wOk none "select a\tdrop\tb").2.2 = ["select a\tdrop\tb"] ∧
    (query_sql cfg0 wOk none "select a\tdrop\tb").1 =
      QueryReply.success ["x"] [[("x", some "1")]] 1 := by decide

/-- Claim C2 (amended): if the normalized text starts with `select` and
some deny-listed keyword occurs bounded by single ASCII space
characters (after padding the normalized text with one leading and one
trailing space), `query_sql` rejects the call with a structured error
naming a deny-listed keyword that so occurs, and executes no query. -/
theorem c2_space_bounded_rejected (cfg : DBConfig) (w : DBWorld) (st : Option Engine)
    (sql : String)
    (hsel : "select".data.isPrefixOf (normalizeSql sql) = true)
    (hkw : ∃ kw ∈ dangerous_keywords,
      pyContains (spacePadded (normalizeSql sql)) (spacePadded kw.data) = true) :
    ∃ kw ∈ dangerous_keywords,
      pyContains (spacePadded (normalizeSql sql)) (spacePadded kw.data) = true ∧
      query_sql cfg w st sql = (QueryReply.failure (keywordErrorMsg kw) sql, st, []) := by
  obtain ⟨kw0, hmem0, hp0⟩ := hkw
  obtain ⟨kw, hfind⟩ := find?_isSome_of_mem
    (fun kw => pyContains (spacePadded (normalizeSql sql)) (spacePadded kw.data))
    dangerous_keywords kw0 hmem0 hp0
  have hpkw0 := List.find?_some hfind
  have hpkw : pyContains (spacePadded (normalizeSql sql)) (spacePadded kw.data) = true := hpkw0
  refine ⟨kw, List.mem_of_find?_eq_some hfind, hpkw, ?_⟩
  have hfd : findDangerousKeyword (normalizeSql sql) = some kw := hfind
  unfold query_sql
  simp [hsel, hfd]

/-- Concrete instance of the amended C2: a space-bounded `drop` inside a
`select` statement is rejected. -/
theorem c2_space_bounded_rejected_witness :
    ∃ kw ∈ dangerous_keywords,
      pyContains (spacePadded (normalizeSql "select 1 ; drop table x"))
        (spacePadded kw.data) = true ∧
      query_sql cfg0 wOk none "select 1 ; drop table x" =
        (QueryReply.failure (keywordErrorMsg kw) "select 1 ; drop table x", none, []) :=
  c2_space_bounded_rejected cfg0 wOk none "select 1 ; drop table x"
    (by decide) ⟨"drop", by decide, by decide⟩

/-- An introspection world with a usable connection whose primary-key
catalog query raises while every other sub-query succeeds. -/
def wPkFails : IntroWorld :=
  ⟨Outcome.ok ⟨0⟩, Outcome.ok ⟨["column_name"], []⟩, Outcome.ok ⟨["column_name"], []⟩,
   Outcome.err "pk boom", Outcome.ok ⟨["fk_name"], []⟩, Outcome.ok ⟨["index_name"], []⟩⟩

/-- Claim C3 counterexample: with a fully usable connection, a failure
of the single-tier primary-key sub-query makes `get_table_structure`
return the whole-call `{"error", "table", "schema"}` value — the other
three lists are not produced and the primary-key list is not emptied,
because only the columns sub-query has a fallback tier and every
unrecovered exception reaches the outer handler at line 409. -/
theorem c3_counterexample :
    wPkFails.connect = Outcome.ok ⟨0⟩ ∧
    get_table_structure wPkFails "Orders" "dbo" =
      TableStructureReply.error "pk boom" "Orders" "dbo" ∧
    (get_table_structure wPkFails "Orders" "dbo").isStruct = false := by decide

/-- Claim C3 (amended): `get_table_structure` returns the four-list
structure exactly when the connection is usable, the columns sub-query
succeeds on one of its two tiers, and each of the single-tier
primary-key, foreign-key and index sub-queries succeeds; the failure of
any sub-query after exhausting its tiers yields a whole-call error value
rather than an empty list for that sub-query. -/
theorem c3_structure_iff (w : IntroWorld) (t s : String) :
    (get_table_structure w t s).isStruct =
      (w.connect.succeeded &&
       (w.columnsRich.succeeded || w.columnsSimple.succeeded) &&
       w.pkQuery.succeeded && w.fkQuery.succeeded && w.indexQuery.succeeded) := by
  rcases w with ⟨c, cr, cs, pk, fk, idx⟩
  cases c <;> cases cr <;> cases cs <;> cases pk <;> cases fk <;> cases idx <;> rfl

/-- Claim C4 counterexample: with `create_engine` succeeding and the
`SELECT 1` probe failing, the error is surfaced but the module-level
engine variable is left holding the new handle (line 45 assigns before
the probe at line 56), so the next call returns that handle with no new
creation attempt (no diagnostics emitted). -/
theorem c4_counterexample :
    (get_db_connection cfg0 wProbeFails none).1 =
      Outcome.err "数据库连接失败: timeout expired" ∧
    (get_db_connection cfg0 wProbeFails none).2.1 = some ⟨7⟩ ∧
    (get_db_connection cfg0 wProbeFails (some ⟨7⟩)).1 = Outcome.ok ⟨7⟩ ∧
    (get_db_connection cfg0 wProbeFails (some ⟨7⟩)).2.2 = ([] : List String) := by decide

/-- Claim C4 (amended): when engine construction itself fails, the error
is surfaced and the engine variable stays uninitialized so the next call
retries; but when construction succeeds and the validation probe fails,
the error is surfaced while the module-level engine variable retains the
newly built, unvalidated handle, so the next call returns that handle
without attempting creation or validation again. -/
theorem c4_connection_failure_state (cfg : DBConfig) (w : DBWorld) :
    (∀ m, w.createEngine = Outcome.err m →
      (get_db_connection cfg w none).1 = Outcome.err ("数据库连接失败: " ++ m) ∧
      (get_db_connection cfg w none).2.1 = none) ∧
    (∀ e m, w.createEngine = Outcome.ok e → w.probe e = Outcome.err m →
      (get_db_connection cfg w none).1 = Outcome.err ("数据库连接失败: " ++ m) ∧
      (get_db_connection cfg w none).2.1 = some e ∧
      get_db_connection cfg w (some e) = (Outcome.ok e, some e, [])) := by
  constructor
  · intro m hm
    unfold get_db_connection
    simp [hm]
  · intro e m he hm
    unfold get_db_connection
    simp [he, hm]

/-- Concrete instances of the amended C4 on both failure modes. -/
theorem c4_connection_failure_state_witness :
    ((get_db_connection cfg0 wCreateFails none).1 =
        Outcome.err ("数据库连接失败: " ++ "bad url") ∧
      (get_db_connection cfg0 wCreateFails none).2.1 = none) ∧
    ((get_db_connection cfg0 wProbeFails none).1 =
        Outcome.err ("数据库连接失败: " ++ "timeout expired") ∧
      (get_db_connection cfg0 wProbeFails none).2.1 = some ⟨7⟩ ∧
      get_db_connection cfg0 wProbeFails (some ⟨7⟩) = (Outcome.ok ⟨7⟩, some ⟨7⟩, [])) :=
  ⟨(c4_connection_failure_state cfg0 wCreateFails).1 "bad url" rfl,
   (c4_connection_failure_state cfg0 wProbeFails).2 ⟨7⟩ "timeout expired" rfl rfl⟩

theorem enumerateFrom_mem (cols : List String) (i : Nat) (hi : i < cols.length) :
    (0 + i, cols.get ⟨i, hi⟩) ∈ pyEnumerate cols :=
  List.get?_mem (enumerateFrom_get? 0 cols i hi)

/-- A row with a failing cell at index 0 and a good cell at index 1,
whose per-cell recovery succeeds. -/
def row6 : RawRow := ⟨[Outcome.err "DecodeError", Outcome.ok (some "v")], false, "row6repr"⟩

/-- Claim C6: a row in which one cell access raises (index `i`) and
every other cell access succeeds, and whose per-cell recovery block does
not itself raise, is still materialized — via the per-cell fallback loop
— with every other cell holding its value and the failing cell replaced
by `None`; the row is not dropped from the materialized list. -/
theorem c6_single_bad_cell (cols : List String) (r : RawRow) (i : Nat)
    (hraw : r.rowFails = false) (hi : i < cols.length)
    (hbad : (cellAccess r i).succeeded = false)
    (hgood : ∀ j, j < cols.length → j ≠ i → (cellAccess r j).succeeded = true) :
    processRow cols r = dictOfRowSafe r cols ∧
    (processRow cols r).length = cols.length ∧
    (∀ j, ∀ hj : j < cols.length,
      (processRow cols r).get? j = some (cols.get ⟨j, hj⟩, recoveredCell (cellAccess r j))) ∧
    recoveredCell (cellAccess r i) = none ∧
    (∀ j, j < cols.length → j ≠ i →
      cellAccess r j = Outcome.ok (recoveredCell (cellAccess r j))) ∧
    (∀ pre post, materializeRows cols (pre ++ r :: post) =
      materializeRows cols pre ++ processRow cols r :: materializeRows cols post) := by
  have hfail : ∀ d, dictOfRow r (pyEnumerate cols) ≠ Outcome.ok d := by
    intro d hd
    have hcell := dictOfRow_ok_cells r _ d hd (0 + i, cols.get ⟨i, hi⟩)
      (enumerateFrom_mem cols i hi)
    simp [Nat.zero_add, hbad] at hcell
  have hpr : processRow cols r = dictOfRowSafe r cols := by
    unfold processRow
    cases hdr : dictOfRow r (pyEnumerate cols) with
    | ok d => exact absurd hdr (hfail d)
    | err m => simp [hraw]
  refine ⟨hpr, ?_, ?_, ?_, ?_, ?_⟩
  · rw [hpr]
    unfold dictOfRowSafe pyEnumerate
    rw [List.length_map, enumerateFrom_length]
  · intro j hj
    rw [hpr]
    unfold dictOfRowSafe pyEnumerate
    rw [List.get?_map, enumerateFrom_get? 0 cols j hj]
    simp
  · cases hc : cellAccess r i with
    | ok v => simp [hc, Outcome.succeeded] at hbad
    | err m => simp [recoveredCell]
  · intro j hj hne
    have hok := hgood j hj hne
    cases hc : cellAccess r j with
    | ok v => simp [recoveredCell]
    | err m => simp [hc, Outcome.succeeded] at hok
  · intro pre post
    unfold materializeRows
    simp

/-- Concrete instance of C6: the two-column row `row6` with exactly one
failing cell survives materialization via the per-cell fallback. -/
theorem c6_single_bad_cell_witness :
    processRow ["a", "b"] row6 = dictOfRowSafe row6 ["a", "b"] ∧
    materializeRows ["a", "b"] ([] ++ row6 :: []) =
      materializeRows ["a", "b"] [] ++
        processRow ["a", "b"] row6 :: materializeRows ["a", "b"] [] :=
  ⟨(c6_single_bad_cell ["a", "b"] row6 0 rfl (by decide) (by decide) (by decide)).1,
   (c6_single_bad_cell ["a", "b"] row6 0 rfl (by decide) (by decide)
      (by decide)).2.2.2.2.2 [] []⟩

theorem processRow_keys (cols : List String) (r : RawRow) :
    (processRow cols r).map Prod.fst = cols ∨
    ((processRow cols r).map Prod.fst = ["value"] ∧ r.rowFails = true) := by
  unfold processRow
  cases hdr : dictOfRow r (pyEnumerate cols) with
  | ok d =>
    left
    rw [dictOfRow_ok_keys r _ d hdr]
    exact enumerateFrom_map_snd 0 cols
  | err m =>
    cases hrf : r.rowFails with
    | true =>
      right
      refine ⟨?_, rfl⟩
      simp
    | false =>
      left
      simp only [Bool.false_eq_true, if_false]
      unfold dictOfRowSafe pyEnumerate
      rw [List.map_map]
      exact enumerateFrom_map_snd 0 cols

/-- A row for which the dict comprehension raises and the per-cell
recovery block also raises, forcing the one-field fallback. -/
def row7 : RawRow := ⟨[Outcome.err "boom"], true, "rawRowText"⟩

/-- A world whose query returns a two-column cursor containing `row7`. -/
def w7 : DBWorld :=
  ⟨Outcome.ok ⟨0⟩, fun _ => Outcome.ok "(1,)",
   fun _ _ => Outcome.ok ⟨["a", "b"], [row7]⟩⟩

/-- Claim C7 counterexample: a success mapping returned by `query_sql`
can contain a row whose key set is `{"value"}` rather than the key set
of `columns = ["a", "b"]`: a row that required the final fallback
representation of src/server.py line 140 is a one-field mapping, so the
claimed key-set invariant fails for fallback rows. -/
theorem c7_counterexample :
    (query_sql cfg0 w7 none "select a, b from t").1 =
      QueryReply.success ["a", "b"] [[("value", some "rawRowText")]] 1 ∧
    ([(("value" : String), (some "rawRowText" : Option String))].map Prod.fst
      = ["value"]) ∧
    ¬ ("a" ∈ [(("value" : String), (some "rawRowText" : Option String))].map Prod.fst) := by
  refine ⟨by decide, by decide, by decide⟩

/-- Claim C7 (amended): in every success mapping returned by
`query_sql`, every row mapping has exactly the keys of `columns` — in
order — except rows that required the final one-field fallback
representation, which instead have the single key `value`. -/
theorem c7_row_keys (cfg : DBConfig) (w : DBWorld) (st : Option Engine) (sql : String)
    (c : List String) (rs : List (List (String × Option String))) (n : Nat)
    (h : (query_sql cfg w st sql).1 = QueryReply.success c rs n) :
    ∀ d ∈ rs, d.map Prod.fst = c ∨ d.map Prod.fst = ["value"] := by
  unfold query_sql at h
  cases hp : "select".data.isPrefixOf (normalizeSql sql) with
  | false => simp [hp] at h
  | true =>
    simp only [hp] at h
    cases hf : findDangerousKeyword (normalizeSql sql) with
    | some kw => simp [hf] at h
    | none =>
      simp only [hf] at h
      rcases hg : get_db_connection cfg w st with ⟨res, st', log⟩
      simp only [hg] at h
      cases res with
      | err m => simp at h
      | ok e =>
        cases hr : w.runQuery e sql with
        | err m => simp [hr] at h
        | ok cur =>
          simp only [hr] at h
          cases h
          intro d hd
          rcases List.mem_map.mp hd with ⟨r, _, rfl⟩
          rcases processRow_keys cur.keys r with hk | ⟨hk, _⟩
          · exact Or.inl hk
          · exact Or.inr hk

/-- Concrete instance of the amended C7 on a per-cell-converted row. -/
theorem c7_row_keys_witness :
    [(("x" : String), (some "1" : Option String))].map Prod.fst = ["x"] ∨
    [(("x" : String), (some "1" : Option String))].map Prod.fst = ["value"] :=
  c7_row_keys cfg0 wOk none "select 1 as x" ["x"] [[("x", some "1")]] 1 (by decide)
    [("x", some "1")] (by decide)

/-- Claim C8 counterexample: on a successful first connection attempt
with password `secret123`, the diagnostic output of `get_db_connection`
contains a line in which the raw password occurs verbatim — the print at
src/server.py line 42 emits the full connection string, which embeds
`DB_PASSWORD`. -/
theorem c8_counterexample :
    (get_db_connection cfg0 wOk none).1 = Outcome.ok ⟨0⟩ ∧
    ((get_db_connection cfg0 wOk none).2.2.any
      (fun line => pyContains line.data "secret123".data)) = true := by decide

/-- Claim C8 (amended): `get_db_connection` does emit a diagnostic
record of the attempt outcome, but on every engine-creation attempt
(first call, memoized handle absent) its diagnostic output contains a
line in which the raw database password occurs as a contiguous
substring, embedded in the printed connection string. -/
theorem c8_password_logged (cfg : DBConfig) (w : DBWorld) :
    ∃ line ∈ (get_db_connection cfg w none).2.2,
      ∃ pre post, line.data = pre ++ cfg.password.data ++ post := by
  refine ⟨"连接字符串: " ++ CONNECTION_STRING cfg, ?_, ?_⟩
  · cases hce : w.createEngine with
    | err m => simp [get_db_connection, hce]
    | ok e =>
      cases hpe : w.probe e with
      | err m => simp [get_db_connection, hce, hpe]
      | ok res => simp [get_db_connection, hce, hpe]
  · refine ⟨("连接字符串: " ++ "mssql+pyodbc://" ++ cfg.user ++ ":").data,
      ("@" ++ cfg.host ++ ":" ++ cfg.port ++ "/" ++ cfg.name
        ++ "?driver=SQL+Server&timeout=30&trusted_connection=no&encrypt=no").data, ?_⟩
    simp [CONNECTION_STRING, String.data_append, List.append_assoc]

/-- A world whose connection works and whose rich table query returns an
empty cursor (a schema with no tables). -/
def wList0 : ListTablesWorld :=
  ⟨Outcome.ok ⟨0⟩,
   Outcome.ok ⟨["table_name", "description", "schema_name"], []⟩,
   Outcome.err "unused"⟩

/-- Claim C10: in every non-error result of `list_tables`, `count`
equals the number of entries in `tables` (on whichever tier produced
them), and a schema with no tables yields the empty table list with
count 0 rather than an error. -/
theorem c10_list_tables_count (w : ListTablesWorld) (schema : String) :
    (∀ t c, list_tables w schema = ListTablesReply.ok t c → c = t.length) ∧
    (∀ e keys, w.connect = Outcome.ok e → w.richQuery = Outcome.ok ⟨keys, []⟩ →
      list_tables w schema = ListTablesReply.ok [] 0) := by
  constructor
  · intro t c h
    unfold list_tables at h
    cases hc : w.connect with
    | err m => simp [hc] at h
    | ok e =>
      simp only [hc] at h
      cases hr : w.richQuery with
      | ok cur => simp only [hr] at h; cases h; rfl
      | err m =>
        simp only [hr] at h
        cases hs : w.simpleQuery with
        | err m2 => simp [hs] at h
        | ok cur => simp only [hs] at h; cases h; rfl
  · intro e keys hc hr
    unfold list_tables
    simp [hc, hr]

/-- Concrete instance of C10 on an empty schema. -/
theorem c10_list_tables_count_witness :
    ((0 : Nat) = ([] : List (List (String × String))).length) ∧
    list_tables wList0 "dbo" = ListTablesReply.ok [] 0 :=
  ⟨(c10_list_tables_count wList0 "dbo").1 [] 0
      ((c10_list_tables_count wList0 "dbo").2 ⟨0⟩
        ["table_name", "description", "schema_name"] rfl rfl),
   (c10_list_tables_count wList0 "dbo").2 ⟨0⟩
      ["table_name", "description", "schema_name"] rfl rfl⟩
